import Mathlib

/-!
Shallow embedding of the ESP real-time relay server (`src/server.js`, with
the early variant in `src/unnamed/part_000` and the WebSocket variant in
`src/unnamed/part_002`), together with theorems settling the spec claims.

Conventions of the embedding:
* SSE subscribers (`res` response objects) are identified by `Nat` ids;
  a JS `Set` of subscribers becomes an insertion-ordered duplicate-free
  `List Nat` (`addClient` is add-if-absent, matching `Set.add`).
* `Date.now()` is an explicit `now : Nat` argument threaded to each
  operation that reads the clock.
* A subscriber write that raises is modelled by a `fails : Nat → Bool`
  oracle supplied to each publish: `fails c = true` means `c.write` throws
  during that publish, and the `catch` branch deletes `c` from the set.
* Observable effects (SSE `data:` frames, catch-up frames, heartbeat
  `: ping` frames) are collected in an output list.
-/

namespace ESP

/-- TTL of the generic channels: `SYMBOL_TTL = 60_000` ms (server.js line 24). -/
def SYMBOL_TTL : Nat := 60000

/-- The event record built by `transmit` (server.js lines 36-37):
`{ symbol, n: Number(n) || 0, timestamp: Date.now(), day: day || null, ... }`. -/
structure Event where
  symbol : String
  n : Int
  timestamp : Nat
  day : Option String
  month : Option String
  year : Option String
deriving DecidableEq

/-- The JSON request body destructured by `transmit` (server.js line 32):
`symbol` absent or empty-string is falsy; `n` is `none` when `Number(n)`
is absent/NaN/0 (all of which `Number(n) || 0` sends to `0`); the calendar
fields are `none` when falsy (`day || null`). -/
structure TransmitBody where
  symbol : Option String
  n : Option Int
  day : Option String
  month : Option String
  year : Option String
deriving DecidableEq

/-- The validity test of server.js line 33: `!symbol || !validSymbols.includes(symbol)`
rejects; so the publish is accepted iff `symbol` is present, truthy (non-empty)
and a member of the channel's valid-symbol list. -/
def symbolOk (valid : List String) (b : TransmitBody) : Bool :=
  match b.symbol with
  | none => false
  | some s => !(s == "") && valid.contains s

/-- Event construction on the accepted path of `transmit` (server.js lines 36-37). -/
def mkEvent (now : Nat) (b : TransmitBody) : Event :=
  { symbol := b.symbol.getD ""
    n := b.n.getD 0
    timestamp := now
    day := b.day
    month := b.month
    year := b.year }

/-- HTTP outcome of a publish: `res.status(400).json({error: ...})` or
`res.status(204).end()`. -/
inductive TransmitResult where
  | rejected400
  | accepted204
deriving DecidableEq

/-- One observable SSE write to a subscriber:
* `dataFrame c e` — `client.write('data: ...')` during a publish fan-out;
* `catchUpFrame c e` — the `res.write('data: ...')` at connect time (stream catch-up);
* `pingFrame c` — the heartbeat `res.write(': ping')`. -/
inductive Out where
  | dataFrame (c : Nat) (e : Event)
  | catchUpFrame (c : Nat) (e : Event)
  | pingFrame (c : Nat)
deriving DecidableEq

/-- State of one generic channel (the closure of `createChannel`):
`lastSymbol`, the `clients` set, plus the set of subscriber ids whose
heartbeat `setInterval` is currently active (`timers`; one interval is
created per `stream` connection and destroyed by `clearInterval`). -/
structure ChannelState where
  lastSymbol : Option Event
  clients : List Nat
  timers : List Nat
deriving DecidableEq

/-- JS `Set.add`: inserts at the end iff not already a member. -/
def addClient (c : Nat) (cs : List Nat) : List Nat :=
  if c ∈ cs then cs else cs ++ [c]

/-- The fan-out loop of `transmit` (server.js lines 40-43): iterate the
client set in order; a successful write emits a data frame and the client
survives; a write that raises is caught and the client deleted from the set.
Returns the frames written and the surviving client list. -/
def fanout (e : Event) (fails : Nat → Bool) : List Nat → List Out × List Nat
  | [] => ([], [])
  | c :: cs =>
    let r := fanout e fails cs
    if fails c then r else (Out.dataFrame c e :: r.1, c :: r.2)

/-- Function `transmit` (server.js lines 31-45): validate the symbol, overwrite
`lastSymbol` with a fresh event, fan out to every client, return 204;
on an invalid symbol return 400 before any mutation. -/
def transmit (valid : List String) (now : Nat) (b : TransmitBody)
    (fails : Nat → Bool) (st : ChannelState) :
    TransmitResult × ChannelState × List Out :=
  if symbolOk valid b then
    let e := mkEvent now b
    let r := fanout e fails st.clients
    (TransmitResult.accepted204,
     { st with lastSymbol := some e, clients := r.2 }, r.1)
  else
    (TransmitResult.rejected400, st, [])

/-- The TTL-gated catch-up test of `stream` (server.js line 58):
`lastSymbol && (Date.now() - lastSymbol.timestamp) < SYMBOL_TTL`. -/
def catchUp (now : Nat) (last : Option Event) : Option Event :=
  match last with
  | some e => if now - e.timestamp < SYMBOL_TTL then some e else none
  | none => none

/-- Function `stream` (server.js lines 47-72): add the response to the client set,
send the cached event iff it is fresh, and start the 25 s heartbeat interval. -/
def streamConnect (now : Nat) (c : Nat) (st : ChannelState) :
    ChannelState × List Out :=
  ({ st with clients := addClient c st.clients, timers := addClient c st.timers },
   match catchUp now st.lastSymbol with
   | some e => [Out.catchUpFrame c e]
   | none => [])

/-- The early variant's `GET /stream` catch-up (src/unnamed/part_000 lines
79-82): `if (lastSymbol) res.write(...)` — the cached event is sent at
connect whenever present, with no freshness test. -/
def streamConnectLegacy (c : Nat) (st : ChannelState) :
    ChannelState × List Out :=
  ({ st with clients := addClient c st.clients, timers := addClient c st.timers },
   match st.lastSymbol with
   | some e => [Out.catchUpFrame c e]
   | none => [])

/-- The `req.on('close')` handler (server.js lines 67-71): `clearInterval(hb)`
first, then `clients.delete(res)`. -/
def closeEvt (c : Nat) (st : ChannelState) : ChannelState :=
  { st with timers := st.timers.erase c, clients := st.clients.erase c }

/-- One firing of a subscriber's heartbeat interval (server.js lines 62-65):
if the interval is still active, try `res.write(': ping')`; on success the
frame is written, on a raised write the interval cancels itself
(`catch (_) { clearInterval(hb) }`). `ok` says whether this write succeeds. -/
def tick (c : Nat) (ok : Bool) (st : ChannelState) : ChannelState × List Out :=
  if c ∈ st.timers then
    if ok then (st, [Out.pingFrame c])
    else ({ st with timers := st.timers.erase c }, [])
  else
    (st, [])

/-- Response of the generic `latest` handler: either a JSON event or the
sentinel `{ symbol: null, n: null }`. -/
inductive LatestResponse where
  | event (e : Event)
  | noneSentinel
deriving DecidableEq

/-- The generic `latest` handler (server.js lines 74-76):
`res.json(lastSymbol ?? { symbol: null, n: null })`. -/
def latest (st : ChannelState) : LatestResponse :=
  match st.lastSymbol with
  | some e => LatestResponse.event e
  | none => LatestResponse.noneSentinel

/-- An externally triggered event on one channel: a `POST .../transmit`
request, a `GET .../stream` connection, a transport close of subscriber `c`,
or a firing of subscriber `c`'s heartbeat interval. -/
inductive Step where
  | transmit (now : Nat) (b : TransmitBody) (fails : Nat → Bool)
  | connect (now : Nat) (c : Nat)
  | close (c : Nat)
  | tick (c : Nat) (ok : Bool)

/-- Event-loop dispatch of one `Step` on a channel. -/
def step (valid : List String) (st : ChannelState) : Step → ChannelState × List Out
  | Step.transmit now b fails =>
    let r := transmit valid now b fails st
    (r.2.1, r.2.2)
  | Step.connect now c => streamConnect now c st
  | Step.close c => (closeEvt c st, [])
  | Step.tick c ok => tick c ok st

/-- Run a sequence of steps, concatenating the observable outputs. -/
def run (valid : List String) (st : ChannelState) : List Step → ChannelState × List Out
  | [] => (st, [])
  | s :: ss =>
    let r := step valid st s
    let r2 := run valid r.1 ss
    (r2.1, r.2 ++ r2.2)

/-- Valid-symbol set of the Zener channel (server.js lines 82-84). -/
def zenerValid : List String := ["cercle", "croix", "vagues", "carre", "etoile"]

end ESP

namespace ESP.Oracle

/-- Constant `ORACLE_VALID` (server.js line 105). -/
def ORACLE_VALID : List String := ["bois", "feu", "terre", "metal", "eau"]

/-- Constant `ORACLE_TTL = 10 * 60_000` ms (server.js line 106). -/
def ORACLE_TTL : Nat := 600000

/-- The oracle event record (server.js line 115):
`{ symbol, timestamp: Date.now(), token: token || null }`. -/
structure OracleEvent where
  symbol : String
  timestamp : Nat
  token : Option String
deriving DecidableEq

/-- Body of `POST /oracle/transmit` (server.js line 111). -/
structure OracleBody where
  symbol : Option String
  token : Option String
deriving DecidableEq

/-- Validity test of server.js line 112. -/
def oracleSymbolOk (b : OracleBody) : Bool :=
  match b.symbol with
  | none => false
  | some s => !(s == "") && ORACLE_VALID.contains s

/-- Event construction on the accepted path (server.js line 115). -/
def mkOracleEvent (now : Nat) (b : OracleBody) : OracleEvent :=
  { symbol := b.symbol.getD "", timestamp := now, token := b.token }

/-- Observable SSE writes of the oracle channel. -/
inductive OracleOut where
  | dataFrame (c : Nat) (e : OracleEvent)
  | pingFrame (c : Nat)
deriving DecidableEq

/-- State of the oracle channel: `lastOracle` and `oracleClients`
(server.js lines 107-108). -/
structure OracleState where
  lastOracle : Option OracleEvent
  oracleClients : List Nat
deriving DecidableEq

/-- Fan-out loop of `/oracle/transmit` (server.js lines 118-121), identical
in shape to the generic one. -/
def oracleFanout (e : OracleEvent) (fails : Nat → Bool) :
    List Nat → List OracleOut × List Nat
  | [] => ([], [])
  | c :: cs =>
    let r := oracleFanout e fails cs
    if fails c then r else (OracleOut.dataFrame c e :: r.1, c :: r.2)

/-- Handler of `POST /oracle/transmit` (server.js lines 110-123). -/
def oracleTransmit (now : Nat) (b : OracleBody) (fails : Nat → Bool)
    (st : OracleState) : TransmitResult × OracleState × List OracleOut :=
  if oracleSymbolOk b then
    let e := mkOracleEvent now b
    let r := oracleFanout e fails st.oracleClients
    (TransmitResult.accepted204,
     { lastOracle := some e, oracleClients := r.2 }, r.1)
  else
    (TransmitResult.rejected400, st, [])

/-- Handler of `GET /oracle/stream` connect (server.js lines 125-151): the client is
added to the set and nothing is written at connect — the freshness test at
lines 136-139 guards an empty block (the symbol is deliberately withheld
until the vocal trigger), so no catch-up frame exists on this channel. -/
def oracleConnect (c : Nat) (st : OracleState) : OracleState × List OracleOut :=
  ({ st with oracleClients := addClient c st.oracleClients }, [])

/-- Response of `GET /oracle/latest`: a JSON event or `{ symbol: null }`. -/
inductive OracleLatestResponse where
  | event (e : OracleEvent)
  | noneSentinel
deriving DecidableEq

/-- Handler of `GET /oracle/latest` (server.js lines 153-159): returns the cached event
only while `Date.now() - lastOracle.timestamp < ORACLE_TTL`, else the sentinel. -/
def oracleLatest (now : Nat) (st : OracleState) : OracleLatestResponse :=
  match st.lastOracle with
  | some e =>
    if now - e.timestamp < ORACLE_TTL then OracleLatestResponse.event e
    else OracleLatestResponse.noneSentinel
  | none => OracleLatestResponse.noneSentinel

end ESP.Oracle

/-!
Embedding of the Magic Draw WebSocket paired session
(src/unnamed/part_002, lines 194-272). The Atelier session (lines
207-239) is line-for-line the same state machine on its own pair of slot
variables, so the Draw model stands for both.

WebSocket handles (`ws` objects) are `Nat` ids. `readyState === 1` is
modelled as membership of `openHandles`. Each connection registers its
`message`/`close` handlers according to the `role` query parameter of
that connection; `registered` records the role each handle connected
with, so a later `close`/`message` transport event fires the handlers
that were installed on that very handle — even if the handle has since
been superseded in its slot.
-/

namespace ESP.Draw

/-- The `role` query parameter. -/
inductive Role where
  | spectateur
  | magicien
deriving DecidableEq

/-- An incoming WebSocket message datum: `JSON.parse(data)` either throws
(`malformed`) or yields an object whose `type` and `imageData` fields the
handler inspects; `raw` is `data.toString()`, the verbatim text. -/
inductive Payload where
  | malformed (raw : String)
  | wellFormed (ty : String) (imageData : Option String) (raw : String)
deriving DecidableEq

/-- The JSON control signals sent by the server:
`{type:'ready'}`, `{type:'magicien_ready'}`, `{type:'spectateur_disconnected'}`. -/
inductive Sig where
  | ready
  | magicienReady
  | spectateurDisconnected
deriving DecidableEq

/-- Observable effects of the session handlers:
* `send h s` — `ws.send(JSON.stringify({type: ...}))` of a control signal;
* `forward h raw` — `drawMagicien.send(data.toString())`, the verbatim relay;
* `notify img` — `sendPushoverImage(msg.imageData)`, the NotificationSink call. -/
inductive WsOut where
  | send (h : Nat) (s : Sig)
  | forward (h : Nat) (raw : String)
  | notify (imageData : Option String)
deriving DecidableEq

/-- State of the Magic Draw session: the two role slots
(`drawSpectateur`, `drawMagicien`, part_002 lines 194-195), the set of
handles whose transport is open (`readyState === 1`), and the role each
handle connected with (its installed handlers). -/
structure DrawState where
  drawSpectateur : Option Nat
  drawMagicien : Option Nat
  openHandles : List Nat
  registered : List (Nat × Role)
deriving DecidableEq

/-- Initial state: both slots `null`, no connections. -/
def initDraw : DrawState :=
  { drawSpectateur := none, drawMagicien := none,
    openHandles := [], registered := [] }

/-- The `wss.on('connection')` handler for the Draw canal (part_002 lines
242-271). A spectateur: take the slot, send `ready` to the new handle, and
if the magicien slot holds an open handle send `ready` to the magicien.
A magicien: take the slot, send `magicien_ready` to the new handle, and if
the spectateur slot holds an open handle send `ready` to the new magicien
itself. The new handle's transport is open and its handlers are installed
under its role. -/
def wsConnect (role : Role) (h : Nat) (st : DrawState) : DrawState × List WsOut :=
  match role with
  | Role.spectateur =>
    ({ st with drawSpectateur := some h,
               openHandles := addClient h st.openHandles,
               registered := (h, Role.spectateur) :: st.registered },
     WsOut.send h Sig.ready ::
       (match st.drawMagicien with
        | some m => if m ∈ st.openHandles then [WsOut.send m Sig.ready] else []
        | none => []))
  | Role.magicien =>
    ({ st with drawMagicien := some h,
               openHandles := addClient h st.openHandles,
               registered := (h, Role.magicien) :: st.registered },
     WsOut.send h Sig.magicienReady ::
       (match st.drawSpectateur with
        | some s => if s ∈ st.openHandles then [WsOut.send h Sig.ready] else []
        | none => []))

/-- The `ws.on('message')` handlers (part_002 lines 248-256). Only a handle
that connected as spectateur has a message handler: parse the data (a parse
error is logged and nothing else happens); if the magicien slot holds an
open handle, forward the raw data verbatim; if `msg.type === 'final'` and
both Pushover credentials are configured, call `sendPushoverImage` with
`msg.imageData`. A handle that connected as magicien installed no message
handler, so its messages are ignored. `cfg` is whether
`PUSHOVER_TOKEN && PUSHOVER_USER` holds. Message handlers mutate no state. -/
def wsMessage (cfg : Bool) (h : Nat) (p : Payload) (st : DrawState) : List WsOut :=
  match (st.registered.lookup h : Option Role) with
  | some Role.spectateur =>
    match p with
    | Payload.malformed _ => []
    | Payload.wellFormed ty imageData raw =>
      (match st.drawMagicien with
       | some m => if m ∈ st.openHandles then [WsOut.forward m raw] else []
       | none => []) ++
      (if ty == "final" && cfg then [WsOut.notify imageData] else [])
  | _ => []

/-- A transport close of handle `h` (part_002 lines 258-262 and 270): the
transport leaves the open state, then the close handler installed on `h`
runs. A spectateur-registered handle's handler unconditionally nulls the
spectateur slot and, if the magicien slot holds an open handle, sends it
`spectateur_disconnected`. A magicien-registered handle's handler
unconditionally nulls the magicien slot and sends nothing. -/
def wsClose (h : Nat) (st : DrawState) : DrawState × List WsOut :=
  let stOpen := { st with openHandles := st.openHandles.erase h }
  match (st.registered.lookup h : Option Role) with
  | some Role.spectateur =>
    ({ stOpen with drawSpectateur := none },
     match st.drawMagicien with
     | some m =>
       if m ∈ stOpen.openHandles then [WsOut.send m Sig.spectateurDisconnected]
       else []
     | none => [])
  | some Role.magicien => ({ stOpen with drawMagicien := none }, [])
  | none => (stOpen, [])

/-- An externally triggered event on the Draw session. -/
inductive WsEv where
  | connect (role : Role) (h : Nat)
  | message (h : Nat) (p : Payload)
  | closeHandle (h : Nat)

/-- Event-loop dispatch of one session event. -/
def wsStep (cfg : Bool) (st : DrawState) : WsEv → DrawState × List WsOut
  | WsEv.connect role h => wsConnect role h st
  | WsEv.message h p => (st, wsMessage cfg h p st)
  | WsEv.closeHandle h => wsClose h st

/-- Run a sequence of session events, concatenating the outputs. -/
def wsRun (cfg : Bool) (st : DrawState) : List WsEv → DrawState × List WsOut
  | [] => (st, [])
  | e :: es =>
    let r := wsStep cfg st e
    let r2 := wsRun cfg r.1 es
    (r2.1, r.2 ++ r2.2)

/-- Outputs addressed to handle `h` (both control signals and relayed data). -/
def sentTo (h : Nat) : WsOut → Bool
  | WsOut.send h' _ => h' == h
  | WsOut.forward h' _ => h' == h
  | WsOut.notify _ => false

end ESP.Draw

namespace ESP

/-- The sequence of publish fan-out events received by subscriber `c`, in
order, extracted from an output log (catch-up and ping frames excluded:
the fan-out frames are the copies delivered to subscribers present at
publish time). -/
def recvEvents (c : Nat) (os : List Out) : List Event :=
  os.filterMap fun o =>
    match o with
    | Out.dataFrame c' e => if c' = c then some e else none
    | _ => none

/-- The events of the accepted publishes of a step sequence, in publish order. -/
def acceptedEvents (valid : List String) : List Step → List Event
  | [] => []
  | Step.transmit now b _ :: ss =>
    if symbolOk valid b then mkEvent now b :: acceptedEvents valid ss
    else acceptedEvents valid ss
  | _ :: ss => acceptedEvents valid ss

end ESP

/-! ## Helper lemmas -/

namespace ESP

theorem mem_addClient_self (c : Nat) (cs : List Nat) : c ∈ addClient c cs := by
  unfold addClient
  split
  · assumption
  · simp

theorem mem_addClient_of_mem {a : Nat} (c : Nat) {cs : List Nat} (h : a ∈ cs) :
    a ∈ addClient c cs := by
  unfold addClient
  split
  · exact h
  · simp [h]

theorem addClient_nodup {cs : List Nat} (h : cs.Nodup) (c : Nat) :
    (addClient c cs).Nodup := by
  unfold addClient
  split
  · exact h
  · simp [List.nodup_append, h, *]

theorem fanout_eq (e : Event) (fails : Nat → Bool) (cs : List Nat) :
    fanout e fails cs =
      ((cs.filter fun c => !fails c).map (fun c => Out.dataFrame c e),
       cs.filter fun c => !fails c) := by
  induction cs with
  | nil => rfl
  | cons c cs ih =>
    cases h : fails c <;> simp [fanout, ih, h]

theorem count_eq_one_of_nodup_mem {l : List Nat} {a : Nat}
    (hn : l.Nodup) (ha : a ∈ l) : l.count a = 1 :=
  List.count_eq_one_of_mem hn ha

theorem oracleLatest_some_fresh {now : Nat} {st : Oracle.OracleState}
    {e' : Oracle.OracleEvent} (h : st.lastOracle = some e')
    (hf : now - e'.timestamp < Oracle.ORACLE_TTL) :
    Oracle.oracleLatest now st = Oracle.OracleLatestResponse.event e' := by
  simp [Oracle.oracleLatest, h, hf]

theorem oracleLatest_some_stale {now : Nat} {st : Oracle.OracleState}
    {e' : Oracle.OracleEvent} (h : st.lastOracle = some e')
    (hf : ¬ now - e'.timestamp < Oracle.ORACLE_TTL) :
    Oracle.oracleLatest now st = Oracle.OracleLatestResponse.noneSentinel := by
  simp [Oracle.oracleLatest, h, hf]

theorem oracleLatest_none {now : Nat} {st : Oracle.OracleState}
    (h : st.lastOracle = none) :
    Oracle.oracleLatest now st = Oracle.OracleLatestResponse.noneSentinel := by
  simp [Oracle.oracleLatest, h]

end ESP

/-! ## Claim C1 -/

namespace ESP

/-- Claim C1 is false as stated: the generic channels' `latest` handler
performs no TTL test. Concretely, publish `cercle` on the Zener channel at
`t = 0` (accepted); at `t = 70000` ms the event is stale
(`70000 - 0 ≥ SYMBOL_TTL`), yet `latest` still returns the event rather
than the none sentinel required by the claim. -/
theorem c1_counterexample :
    (transmit zenerValid 0 ⟨some "cercle", none, none, none, none⟩
        (fun _ => false) ⟨none, [], []⟩).1 = TransmitResult.accepted204 ∧
    ¬ (70000 - (mkEvent 0 ⟨some "cercle", none, none, none, none⟩).timestamp
        < SYMBOL_TTL) ∧
    latest (transmit zenerValid 0 ⟨some "cercle", none, none, none, none⟩
        (fun _ => false) ⟨none, [], []⟩).2.1 =
      LatestResponse.event (mkEvent 0 ⟨some "cercle", none, none, none, none⟩) := by
  decide

/-- Claim C1 amended: only the Oracle channel's `peekLatest` is TTL-gated —
it returns the cached event iff `now - arrivalTime < ORACLE_TTL` and the
none sentinel otherwise (including before any publish). On the generic
channels (Zener, Go-Gyō, Astro), `peekLatest` returns the last accepted
event whenever one exists, regardless of age, and the none sentinel only
before any publish. -/
theorem c1_amended :
    (∀ (st : ChannelState) (e : Event),
        (latest st = LatestResponse.event e ↔ st.lastSymbol = some e) ∧
        (latest st = LatestResponse.noneSentinel ↔ st.lastSymbol = none)) ∧
    (∀ (now : Nat) (st : Oracle.OracleState) (e : Oracle.OracleEvent),
        (Oracle.oracleLatest now st = Oracle.OracleLatestResponse.event e ↔
          st.lastOracle = some e ∧ now - e.timestamp < Oracle.ORACLE_TTL) ∧
        (Oracle.oracleLatest now st = Oracle.OracleLatestResponse.noneSentinel ↔
          (st.lastOracle = none ∨ ∃ e', st.lastOracle = some e' ∧
            Oracle.ORACLE_TTL ≤ now - e'.timestamp))) := by
  constructor
  · intro st e
    cases h : st.lastSymbol <;> simp [latest, h]
  · intro now st e
    constructor
    · constructor
      · intro he
        cases h : st.lastOracle with
        | none => rw [oracleLatest_none h] at he; simp at he
        | some e' =>
          by_cases hf : now - e'.timestamp < Oracle.ORACLE_TTL
          · rw [oracleLatest_some_fresh h hf] at he
            injection he with he'
            subst he'
            exact ⟨rfl, hf⟩
          · rw [oracleLatest_some_stale h hf] at he; simp at he
      · rintro ⟨h, hf⟩
        exact oracleLatest_some_fresh h hf
    · constructor
      · intro he
        cases h : st.lastOracle with
        | none => exact Or.inl rfl
        | some e' =>
          by_cases hf : now - e'.timestamp < Oracle.ORACLE_TTL
          · rw [oracleLatest_some_fresh h hf] at he; simp at he
          · exact Or.inr ⟨e', rfl, by omega⟩
      · intro hor
        rcases hor with h | ⟨e', h, hf⟩
        · exact oracleLatest_none h
        · exact oracleLatest_some_stale h (by omega)

/-- Theorem `c1_amended` evaluated at concrete inputs: a stale generic cache still
answers with its event, while a stale oracle cache answers the sentinel. -/
theorem c1_amended_witness :
    latest ⟨some ⟨"croix", 1, 0, none, none, none⟩, [], []⟩ =
      LatestResponse.event ⟨"croix", 1, 0, none, none, none⟩ ∧
    Oracle.oracleLatest 700000 ⟨some ⟨"feu", 0, some "tok"⟩, []⟩ =
      Oracle.OracleLatestResponse.noneSentinel := by
  constructor
  · exact (c1_amended.1 ⟨some ⟨"croix", 1, 0, none, none, none⟩, [], []⟩
      ⟨"croix", 1, 0, none, none, none⟩).1.mpr rfl
  · exact (c1_amended.2 700000 ⟨some ⟨"feu", 0, some "tok"⟩, []⟩
      ⟨"feu", 0, some "tok"⟩).2.mpr (Or.inr ⟨⟨"feu", 0, some "tok"⟩, rfl, by decide⟩)

end ESP

/-! ## Claim C9 -/

namespace ESP

theorem symbolOk_eq_false {valid : List String} {b : TransmitBody}
    (h : b.symbol = none ∨ ∃ s, b.symbol = some s ∧ s ∉ valid) :
    symbolOk valid b = false := by
  rcases h with h | ⟨s, hs, hv⟩
  · simp [symbolOk, h]
  · simp [symbolOk, hs]
    intro _
    simpa using hv

theorem oracleSymbolOk_eq_false {b : Oracle.OracleBody}
    (h : b.symbol = none ∨ ∃ s, b.symbol = some s ∧ s ∉ Oracle.ORACLE_VALID) :
    Oracle.oracleSymbolOk b = false := by
  rcases h with h | ⟨s, hs, hv⟩
  · simp [Oracle.oracleSymbolOk, h]
  · simp [Oracle.oracleSymbolOk, hs]
    intro _
    simpa using hv

/-- Claim C9: on every channel (the generic ones and the Oracle), a publish
whose `kind` is absent or outside the channel's valid-symbol set returns the
400 `InvalidSymbol` rejection, leaves the event cache unchanged, leaves the
subscriber set untouched, and performs no fan-out write (the whole state is
returned intact, and the output list is empty). -/
theorem c9_invalid_symbol_rejected :
    (∀ (valid : List String) (now : Nat) (b : TransmitBody) (fails : Nat → Bool)
        (st : ChannelState),
        (b.symbol = none ∨ ∃ s, b.symbol = some s ∧ s ∉ valid) →
        transmit valid now b fails st = (TransmitResult.rejected400, st, [])) ∧
    (∀ (now : Nat) (b : Oracle.OracleBody) (fails : Nat → Bool)
        (st : Oracle.OracleState),
        (b.symbol = none ∨ ∃ s, b.symbol = some s ∧ s ∉ Oracle.ORACLE_VALID) →
        Oracle.oracleTransmit now b fails st = (TransmitResult.rejected400, st, [])) := by
  constructor
  · intro valid now b fails st h
    simp [transmit, symbolOk_eq_false h]
  · intro now b fails st h
    simp [Oracle.oracleTransmit, oracleSymbolOk_eq_false h]

/-- Theorem `c9_invalid_symbol_rejected` at a concrete input: `diamant` is not a
Zener symbol, so the publish is rejected and the channel state survives
unchanged with no write. -/
theorem c9_witness :
    transmit zenerValid 5 ⟨some "diamant", none, none, none, none⟩ (fun _ => true)
        ⟨none, [3], [3]⟩ = (TransmitResult.rejected400, ⟨none, [3], [3]⟩, []) :=
  c9_invalid_symbol_rejected.1 zenerValid 5 ⟨some "diamant", none, none, none, none⟩
    (fun _ => true) ⟨none, [3], [3]⟩ (Or.inr ⟨"diamant", rfl, by decide⟩)

end ESP

/-! ## Claim C8 -/

namespace ESP

theorem catchUp_eq_some_iff {now : Nat} {last : Option Event} {e : Event} :
    catchUp now last = some e ↔
      last = some e ∧ now - e.timestamp < SYMBOL_TTL := by
  cases h : last with
  | none => simp [catchUp]
  | some e' =>
    by_cases hf : now - e'.timestamp < SYMBOL_TTL
    · simp only [catchUp, if_pos hf, Option.some.injEq]
      constructor
      · intro he
        exact ⟨he, by rw [← he]; exact hf⟩
      · exact fun hp => hp.1
    · simp only [catchUp, if_neg hf]
      constructor
      · intro he
        exact Option.noConfusion he
      · rintro ⟨hp1, hp2⟩
        injection hp1 with he
        subst he
        exact absurd hp2 hf

theorem catchUp_eq_none_iff {now : Nat} {last : Option Event} :
    catchUp now last = none ↔
      (last = none ∨ ∃ e', last = some e' ∧ SYMBOL_TTL ≤ now - e'.timestamp) := by
  cases h : last with
  | none => simp [catchUp]
  | some e' =>
    by_cases hf : now - e'.timestamp < SYMBOL_TTL
    · simp [catchUp, hf]
    · simp [catchUp, hf]
      omega

/-- Claim C8 is false as stated: the early variant's `GET /stream`
(src/unnamed/part_000 lines 79-82) delivers the cached event at connect with
no freshness test (`if (lastSymbol) res.write(...)`). Concretely: `cercle`
is published at `t = 0` on a fresh channel (accepted, cache written), and a
subscriber connects at `t = 70000` ms, when the cached event is stale
(`70000 - 0 ≥ SYMBOL_TTL = 60000`). The claim requires nothing to be
delivered at connect, yet the connection receives the stale catch-up
frame. -/
theorem c8_counterexample :
    (transmit zenerValid 0 ⟨some "cercle", some 2, none, none, none⟩
        (fun _ => false) ⟨none, [], []⟩).1 = TransmitResult.accepted204 ∧
    ¬ ((70000 : Nat) -
        (mkEvent 0 ⟨some "cercle", some 2, none, none, none⟩).timestamp
        < SYMBOL_TTL) ∧
    (streamConnectLegacy 5
        (transmit zenerValid 0 ⟨some "cercle", some 2, none, none, none⟩
          (fun _ => false) ⟨none, [], []⟩).2.1).2 =
      [Out.catchUpFrame 5 (mkEvent 0 ⟨some "cercle", some 2, none, none, none⟩)] := by
  decide

/-- Claim C8 amended: in server.js (and the part_001/part_002 variants) a
subscriber connecting to a non-silent channel receives the cached event at
connect iff one exists and `now - arrivalTime < SYMBOL_TTL` — the connect
itself performs the delivery, so it precedes any subsequent live publish —
and receives nothing when the cache is absent or stale. In the early
part_000 variant, the cached event is delivered at connect whenever present,
regardless of age. In both, the subscriber is in the set after connecting. -/
theorem c8_amended :
    (∀ (now c : Nat) (st : ChannelState),
        (∀ e, (streamConnect now c st).2 = [Out.catchUpFrame c e] ↔
          st.lastSymbol = some e ∧ now - e.timestamp < SYMBOL_TTL) ∧
        ((streamConnect now c st).2 = [] ↔
          (st.lastSymbol = none ∨ ∃ e', st.lastSymbol = some e' ∧
            SYMBOL_TTL ≤ now - e'.timestamp)) ∧
        c ∈ (streamConnect now c st).1.clients) ∧
    (∀ (c : Nat) (st : ChannelState) (e : Event),
        ((streamConnectLegacy c st).2 = [Out.catchUpFrame c e] ↔
          st.lastSymbol = some e) ∧
        c ∈ (streamConnectLegacy c st).1.clients) := by
  constructor
  · intro now c st
    refine ⟨?_, ?_, ?_⟩
    · intro e
      rw [← @catchUp_eq_some_iff now st.lastSymbol e]
      cases h : catchUp now st.lastSymbol with
      | none => simp [streamConnect, h]
      | some e' => simp [streamConnect, h]
    · rw [← @catchUp_eq_none_iff now st.lastSymbol]
      cases h : catchUp now st.lastSymbol with
      | none => simp [streamConnect, h]
      | some e' => simp [streamConnect, h]
    · exact mem_addClient_self c st.clients
  · intro c st e
    constructor
    · cases h : st.lastSymbol with
      | none => simp [streamConnectLegacy, h]
      | some e' => simp [streamConnectLegacy, h]
    · exact mem_addClient_self c st.clients

/-- Theorem `c8_amended` at concrete inputs: a fresh cached event is delivered at
connect on the server.js stream, and a stale one is not. -/
theorem c8_amended_witness :
    (streamConnect 10000 7
        ⟨some ⟨"cercle", 0, 0, none, none, none⟩, [], []⟩).2 =
      [Out.catchUpFrame 7 ⟨"cercle", 0, 0, none, none, none⟩] ∧
    (streamConnect 70000 7
        ⟨some ⟨"cercle", 0, 0, none, none, none⟩, [], []⟩).2 = [] := by
  constructor
  · exact ((c8_amended.1 10000 7 ⟨some ⟨"cercle", 0, 0, none, none, none⟩, [], []⟩).1
      ⟨"cercle", 0, 0, none, none, none⟩).mpr ⟨rfl, by decide⟩
  · exact (c8_amended.1 70000 7
      ⟨some ⟨"cercle", 0, 0, none, none, none⟩, [], []⟩).2.1.mpr
      (Or.inr ⟨⟨"cercle", 0, 0, none, none, none⟩, rfl, by decide⟩)

end ESP

/-! ## Claim C7 -/

namespace ESP

theorem oracleFanout_eq (e : Oracle.OracleEvent) (fails : Nat → Bool)
    (cs : List Nat) :
    Oracle.oracleFanout e fails cs =
      ((cs.filter fun c => !fails c).map (fun c => Oracle.OracleOut.dataFrame c e),
       cs.filter fun c => !fails c) := by
  induction cs with
  | nil => rfl
  | cons c cs ih =>
    cases h : fails c <;> simp [Oracle.oracleFanout, ih, h]

theorem count_filter_map_dataFrame (e : Oracle.OracleEvent) (fails : Nat → Bool)
    {cs : List Nat} {c : Nat} (hn : cs.Nodup) (hc : c ∈ cs)
    (hf : fails c = false) :
    ((cs.filter fun a => !fails a).map
        (fun a => Oracle.OracleOut.dataFrame a e)).count
      (Oracle.OracleOut.dataFrame c e) = 1 := by
  have hinj : Function.Injective (fun a => Oracle.OracleOut.dataFrame a e) := by
    intro a b hab
    injection hab
  rw [List.count_map_of_injective _ _ hinj c]
  exact count_eq_one_of_nodup_mem (hn.filter _)
    (List.mem_filter.mpr ⟨hc, by simp [hf]⟩)

/-- Claim C7: a subscriber connecting to the Oracle stream (the
silent-catch-up channel) is handed nothing at connect time — whatever the
cache holds and however fresh it is, the connect output is empty — and the
next accepted live publish delivers exactly one copy of the event to it
(provided its write does not raise). -/
theorem c7_oracle_silent_connect :
    (∀ (c : Nat) (st : Oracle.OracleState), (Oracle.oracleConnect c st).2 = []) ∧
    (∀ (c now : Nat) (st : Oracle.OracleState) (b : Oracle.OracleBody)
        (fails : Nat → Bool),
        st.oracleClients.Nodup → Oracle.oracleSymbolOk b = true →
        fails c = false →
        ((Oracle.oracleTransmit now b fails (Oracle.oracleConnect c st).1).2.2).count
            (Oracle.OracleOut.dataFrame c (Oracle.mkOracleEvent now b)) = 1) := by
  constructor
  · intro c st
    rfl
  · intro c now st b fails hn hok hf
    simp only [Oracle.oracleConnect, Oracle.oracleTransmit, hok, if_pos,
      oracleFanout_eq]
    exact count_filter_map_dataFrame _ fails (addClient_nodup hn c)
      (mem_addClient_self c st.oracleClients) hf

/-- Theorem `c7_oracle_silent_connect` at a concrete input: subscriber 4 connects to
the Oracle stream over a fresh cached event and receives nothing; the next
publish of `feu` reaches it exactly once. -/
theorem c7_witness :
    (Oracle.oracleConnect 4 ⟨some ⟨"eau", 100, none⟩, [9]⟩).2 = [] ∧
    ((Oracle.oracleTransmit 200 ⟨some "feu", some "tok"⟩ (fun _ => false)
        (Oracle.oracleConnect 4 ⟨some ⟨"eau", 100, none⟩, [9]⟩).1).2.2).count
      (Oracle.OracleOut.dataFrame 4 (Oracle.mkOracleEvent 200 ⟨some "feu", some "tok"⟩)) = 1 :=
  ⟨c7_oracle_silent_connect.1 4 ⟨some ⟨"eau", 100, none⟩, [9]⟩,
   c7_oracle_silent_connect.2 4 200 ⟨some ⟨"eau", 100, none⟩, [9]⟩
     ⟨some "feu", some "tok"⟩ (fun _ => false) (by decide) (by decide) rfl⟩

end ESP

/-! ## Claim C4 -/

namespace ESP

/-- Claim C4 is false as stated: connecting role A (spectateur, handle 0)
then role B (magicien, handle 1) sends `ready` to 0, then
`magicien_ready` and the peer-ready `ready` both to 1 — handle 0 receives
exactly one signal in total, never the second peer-ready signal the claim
requires to be "sent to both sides". -/
theorem c4_counterexample :
    (Draw.wsRun false Draw.initDraw
        [Draw.WsEv.connect Draw.Role.spectateur 0,
         Draw.WsEv.connect Draw.Role.magicien 1]).2 =
      [Draw.WsOut.send 0 Draw.Sig.ready,
       Draw.WsOut.send 1 Draw.Sig.magicienReady,
       Draw.WsOut.send 1 Draw.Sig.ready] ∧
    ((Draw.wsRun false Draw.initDraw
        [Draw.WsEv.connect Draw.Role.spectateur 0,
         Draw.WsEv.connect Draw.Role.magicien 1]).2.filter
      (Draw.sentTo 0)).length = 1 := by
  decide

/-- Claim C4 amended: on Connect a ready-type signal is always sent to the
newly connected handle (`ready` for the spectateur, `magicien_ready` for the
magicien); when the opposite slot already holds an open handle, exactly one
additional peer-ready `ready` signal is sent — to the existing magicien when
a spectateur connects, but to the newly connected magicien itself when a
magicien connects, so the spectateur side never receives a peer-ready
signal. -/
theorem c4_amended :
    (∀ (st : Draw.DrawState) (h m : Nat),
        st.drawMagicien = some m → m ∈ st.openHandles →
        (Draw.wsConnect Draw.Role.spectateur h st).2 =
          [Draw.WsOut.send h Draw.Sig.ready, Draw.WsOut.send m Draw.Sig.ready]) ∧
    (∀ (st : Draw.DrawState) (h : Nat),
        st.drawMagicien = none →
        (Draw.wsConnect Draw.Role.spectateur h st).2 =
          [Draw.WsOut.send h Draw.Sig.ready]) ∧
    (∀ (st : Draw.DrawState) (h s : Nat),
        st.drawSpectateur = some s → s ∈ st.openHandles → s ≠ h →
        (Draw.wsConnect Draw.Role.magicien h st).2 =
          [Draw.WsOut.send h Draw.Sig.magicienReady,
           Draw.WsOut.send h Draw.Sig.ready] ∧
        (Draw.wsConnect Draw.Role.magicien h st).2.filter (Draw.sentTo s) = []) := by
  refine ⟨?_, ?_, ?_⟩
  · intro st h m hm hopen
    simp [Draw.wsConnect, hm, hopen]
  · intro st h hm
    simp [Draw.wsConnect, hm]
  · intro st h s hs hopen hne
    constructor
    · simp [Draw.wsConnect, hs, hopen]
    · simp [Draw.wsConnect, hs, hopen, Draw.sentTo, Ne.symm hne]

/-- Theorem `c4_amended` at a concrete input: spectateur 0 connects while magicien 2
is open in its slot — 0 gets `ready` and 2 gets the peer-ready `ready`. -/
theorem c4_amended_witness :
    (Draw.wsConnect Draw.Role.spectateur 0
        ⟨none, some 2, [2], [(2, Draw.Role.magicien)]⟩).2 =
      [Draw.WsOut.send 0 Draw.Sig.ready, Draw.WsOut.send 2 Draw.Sig.ready] :=
  c4_amended.1 ⟨none, some 2, [2], [(2, Draw.Role.magicien)]⟩ 0 2 rfl (by decide)

end ESP

/-! ## Claim C5 -/

namespace ESP

/-- Claim C5 is false as stated for the magicien role: after spectateur 0
and magicien 1 connect, closing magicien 1's transport empties the magicien
slot but sends nothing — the whole run delivers handle 0 only its
connect-time `ready`, although 0 is still connected and open, where the
claim requires a peer-disconnected signal. -/
theorem c5_counterexample :
    (Draw.wsRun false Draw.initDraw
        [Draw.WsEv.connect Draw.Role.spectateur 0,
         Draw.WsEv.connect Draw.Role.magicien 1,
         Draw.WsEv.closeHandle 1]).1.drawMagicien = none ∧
    (Draw.wsRun false Draw.initDraw
        [Draw.WsEv.connect Draw.Role.spectateur 0,
         Draw.WsEv.connect Draw.Role.magicien 1,
         Draw.WsEv.closeHandle 1]).1.drawSpectateur = some 0 ∧
    0 ∈ (Draw.wsRun false Draw.initDraw
        [Draw.WsEv.connect Draw.Role.spectateur 0,
         Draw.WsEv.connect Draw.Role.magicien 1,
         Draw.WsEv.closeHandle 1]).1.openHandles ∧
    (Draw.wsRun false Draw.initDraw
        [Draw.WsEv.connect Draw.Role.spectateur 0,
         Draw.WsEv.connect Draw.Role.magicien 1,
         Draw.WsEv.closeHandle 1]).2.filter (Draw.sentTo 0) =
      [Draw.WsOut.send 0 Draw.Sig.ready] := by
  decide

/-- Claim C5 amended: the disconnect notification is one-directional. On
Disconnect of a spectateur-registered handle the producer slot becomes
Empty and, when the magicien slot holds an open handle, that magicien
receives `spectateur_disconnected`; on Disconnect of a magicien-registered
handle the consumer slot becomes Empty silently — the spectateur receives
no signal. -/
theorem c5_amended :
    (∀ (st : Draw.DrawState) (h m : Nat),
        st.registered.lookup h = some Draw.Role.spectateur →
        st.drawMagicien = some m → m ≠ h → m ∈ st.openHandles →
        Draw.wsClose h st =
          ({ st with openHandles := st.openHandles.erase h,
                     drawSpectateur := none },
           [Draw.WsOut.send m Draw.Sig.spectateurDisconnected])) ∧
    (∀ (st : Draw.DrawState) (h : Nat),
        st.registered.lookup h = some Draw.Role.magicien →
        Draw.wsClose h st =
          ({ st with openHandles := st.openHandles.erase h,
                     drawMagicien := none }, [])) := by
  constructor
  · intro st h m hreg hm hne hopen
    simp only [Draw.wsClose, hreg, hm]
    rw [if_pos ((List.mem_erase_of_ne hne).mpr hopen)]
  · intro st h hreg
    simp only [Draw.wsClose, hreg]

/-- Theorem `c5_amended` at a concrete input: closing spectateur 0 notifies the open
magicien 1; closing magicien 1 notifies nobody. -/
theorem c5_amended_witness :
    Draw.wsClose 0
        ⟨some 0, some 1, [0, 1],
         [(1, Draw.Role.magicien), (0, Draw.Role.spectateur)]⟩ =
      (⟨none, some 1, [1],
        [(1, Draw.Role.magicien), (0, Draw.Role.spectateur)]⟩,
       [Draw.WsOut.send 1 Draw.Sig.spectateurDisconnected]) ∧
    Draw.wsClose 1
        ⟨some 0, some 1, [0, 1],
         [(1, Draw.Role.magicien), (0, Draw.Role.spectateur)]⟩ =
      (⟨some 0, none, [0],
        [(1, Draw.Role.magicien), (0, Draw.Role.spectateur)]⟩, []) :=
  ⟨c5_amended.1 ⟨some 0, some 1, [0, 1],
      [(1, Draw.Role.magicien), (0, Draw.Role.spectateur)]⟩ 0 1
      rfl rfl (by decide) (by decide),
   c5_amended.2 ⟨some 0, some 1, [0, 1],
      [(1, Draw.Role.magicien), (0, Draw.Role.spectateur)]⟩ 1 rfl⟩

end ESP

/-! ## Claim C3 -/

namespace ESP

/-- Claim C3 is false as stated, twice over. (a) Consumer-to-producer relay
does not exist: after spectateur 0 and magicien 1 connect, a well-formed
message arriving on magicien 1 produces no output at all, although
spectateur 0 is connected and open. (b) With the Pushover credentials
unconfigured, a terminal (`final`) spectateur payload is forwarded but the
NotificationSink is never invoked. -/
theorem c3_counterexample :
    Draw.wsMessage true 1 (Draw.Payload.wellFormed "stroke" none "tracé")
        (Draw.wsRun true Draw.initDraw
          [Draw.WsEv.connect Draw.Role.spectateur 0,
           Draw.WsEv.connect Draw.Role.magicien 1]).1 = [] ∧
    Draw.wsMessage false 0 (Draw.Payload.wellFormed "final" (some "img") "fin")
        (Draw.wsRun false Draw.initDraw
          [Draw.WsEv.connect Draw.Role.spectateur 0,
           Draw.WsEv.connect Draw.Role.magicien 1]).1 =
      [Draw.WsOut.forward 1 "fin"] := by
  decide

/-- Claim C3 amended: relay is one-directional, producer to consumer only.
When a message arrives on a spectateur-registered handle and parses as JSON:
if the magicien slot holds an open handle the raw payload is forwarded to it
verbatim; and if additionally the payload's `type` is `final` and both
Pushover credentials are configured, the NotificationSink is invoked with
the payload's `imageData` artifact (whether or not a magicien is connected).
Messages arriving on a magicien-registered handle, and unparseable payloads,
produce nothing. -/
theorem c3_amended :
    (∀ (cfg : Bool) (st : Draw.DrawState) (h m : Nat) (ty raw : String)
        (img : Option String),
        st.registered.lookup h = some Draw.Role.spectateur →
        st.drawMagicien = some m → m ∈ st.openHandles →
        Draw.wsMessage cfg h (Draw.Payload.wellFormed ty img raw) st =
          Draw.WsOut.forward m raw ::
            (if ty == "final" && cfg then [Draw.WsOut.notify img] else [])) ∧
    (∀ (cfg : Bool) (st : Draw.DrawState) (h : Nat) (ty raw : String)
        (img : Option String),
        st.registered.lookup h = some Draw.Role.spectateur →
        st.drawMagicien = none →
        Draw.wsMessage cfg h (Draw.Payload.wellFormed ty img raw) st =
          (if ty == "final" && cfg then [Draw.WsOut.notify img] else [])) ∧
    (∀ (cfg : Bool) (st : Draw.DrawState) (h : Nat) (p : Draw.Payload),
        st.registered.lookup h = some Draw.Role.magicien →
        Draw.wsMessage cfg h p st = []) ∧
    (∀ (cfg : Bool) (st : Draw.DrawState) (h : Nat) (raw : String),
        Draw.wsMessage cfg h (Draw.Payload.malformed raw) st = []) := by
  refine ⟨?_, ?_, ?_, ?_⟩
  · intro cfg st h m ty raw img hreg hm hopen
    simp [Draw.wsMessage, hreg, hm, hopen]
  · intro cfg st h ty raw img hreg hm
    simp [Draw.wsMessage, hreg, hm]
  · intro cfg st h p hreg
    simp [Draw.wsMessage, hreg]
  · intro cfg st h raw
    cases hreg : st.registered.lookup h with
    | none => simp [Draw.wsMessage, hreg]
    | some role => cases role <;> simp [Draw.wsMessage, hreg]

/-- Theorem `c3_amended` at concrete inputs: a `final` spectateur message with the
credentials configured is forwarded to the open magicien and triggers one
sink call with its artifact. -/
theorem c3_amended_witness :
    Draw.wsMessage true 0 (Draw.Payload.wellFormed "final" (some "imgX") "fin")
        ⟨some 0, some 1, [0, 1],
         [(1, Draw.Role.magicien), (0, Draw.Role.spectateur)]⟩ =
      [Draw.WsOut.forward 1 "fin", Draw.WsOut.notify (some "imgX")] :=
  c3_amended.1 true ⟨some 0, some 1, [0, 1],
      [(1, Draw.Role.magicien), (0, Draw.Role.spectateur)]⟩ 0 1 "final" "fin"
    (some "imgX") rfl rfl (by decide)

end ESP

/-! ## Claim C10 -/

namespace ESP

/-- Claim C10 (implicit, confirmed): if spectateur handle `h1` is superseded
by a new spectateur connection `h2`, and later `h1`'s transport closes, the
close handler installed on `h1` unconditionally empties the producer slot
(which `h2` occupied) and sends the open magicien `spectateur_disconnected`
— even though `h2` is still connected and open. -/
theorem c10_supersede_close (cfg : Bool) (st : Draw.DrawState)
    (h1 h2 m : Nat) (hne : h1 ≠ h2) (hm : st.drawMagicien = some m)
    (hmo : m ∈ st.openHandles) (hm1 : m ≠ h1) :
    (Draw.wsRun cfg st
        [Draw.WsEv.connect Draw.Role.spectateur h1,
         Draw.WsEv.connect Draw.Role.spectateur h2]).1.drawSpectateur = some h2 ∧
    h2 ∈ (Draw.wsRun cfg st
        [Draw.WsEv.connect Draw.Role.spectateur h1,
         Draw.WsEv.connect Draw.Role.spectateur h2]).1.openHandles ∧
    (Draw.wsClose h1 (Draw.wsRun cfg st
        [Draw.WsEv.connect Draw.Role.spectateur h1,
         Draw.WsEv.connect Draw.Role.spectateur h2]).1).1.drawSpectateur = none ∧
    h2 ∈ (Draw.wsClose h1 (Draw.wsRun cfg st
        [Draw.WsEv.connect Draw.Role.spectateur h1,
         Draw.WsEv.connect Draw.Role.spectateur h2]).1).1.openHandles ∧
    (Draw.wsClose h1 (Draw.wsRun cfg st
        [Draw.WsEv.connect Draw.Role.spectateur h1,
         Draw.WsEv.connect Draw.Role.spectateur h2]).1).2 =
      [Draw.WsOut.send m Draw.Sig.spectateurDisconnected] := by
  have hrun : (Draw.wsRun cfg st
      [Draw.WsEv.connect Draw.Role.spectateur h1,
       Draw.WsEv.connect Draw.Role.spectateur h2]).1 =
      { st with drawSpectateur := some h2,
                openHandles := addClient h2 (addClient h1 st.openHandles),
                registered := (h2, Draw.Role.spectateur) ::
                  (h1, Draw.Role.spectateur) :: st.registered } := by
    simp [Draw.wsRun, Draw.wsStep, Draw.wsConnect]
  rw [hrun]
  have hlook : (((h2, Draw.Role.spectateur) ::
      (h1, Draw.Role.spectateur) :: st.registered).lookup h1 : Option Draw.Role) =
      some Draw.Role.spectateur := by
    have hb : (h2 == h1) = false := beq_eq_false_iff_ne.mpr (Ne.symm hne)
    simp [List.lookup, hb]
    cases h1 == h2 <;> rfl
  have hm2mem : m ∈ addClient h2 (addClient h1 st.openHandles) :=
    mem_addClient_of_mem h2 (mem_addClient_of_mem h1 hmo)
  have hmerase : m ∈ (addClient h2 (addClient h1 st.openHandles)).erase h1 :=
    (List.mem_erase_of_ne hm1).mpr hm2mem
  have h2erase : h2 ∈ (addClient h2 (addClient h1 st.openHandles)).erase h1 :=
    (List.mem_erase_of_ne (Ne.symm hne)).mpr (mem_addClient_self h2 _)
  refine ⟨rfl, mem_addClient_self h2 _, ?_, ?_, ?_⟩
  · simp only [Draw.wsClose, hlook, hm]
  · simp only [Draw.wsClose, hlook, hm]
    exact h2erase
  · simp only [Draw.wsClose, hlook, hm]
    rw [if_pos hmerase]

/-- Theorem `c10_supersede_close` at a concrete input: spectateur 0 superseded by
spectateur 1 while magicien 5 is open; closing 0 still empties the slot and
signals magicien 5. -/
theorem c10_witness :
    (Draw.wsRun true ⟨none, some 5, [5], [(5, Draw.Role.magicien)]⟩
        [Draw.WsEv.connect Draw.Role.spectateur 0,
         Draw.WsEv.connect Draw.Role.spectateur 1]).1.drawSpectateur = some 1 ∧
    1 ∈ (Draw.wsRun true ⟨none, some 5, [5], [(5, Draw.Role.magicien)]⟩
        [Draw.WsEv.connect Draw.Role.spectateur 0,
         Draw.WsEv.connect Draw.Role.spectateur 1]).1.openHandles ∧
    (Draw.wsClose 0 (Draw.wsRun true ⟨none, some 5, [5], [(5, Draw.Role.magicien)]⟩
        [Draw.WsEv.connect Draw.Role.spectateur 0,
         Draw.WsEv.connect Draw.Role.spectateur 1]).1).1.drawSpectateur = none ∧
    1 ∈ (Draw.wsClose 0 (Draw.wsRun true ⟨none, some 5, [5], [(5, Draw.Role.magicien)]⟩
        [Draw.WsEv.connect Draw.Role.spectateur 0,
         Draw.WsEv.connect Draw.Role.spectateur 1]).1).1.openHandles ∧
    (Draw.wsClose 0 (Draw.wsRun true ⟨none, some 5, [5], [(5, Draw.Role.magicien)]⟩
        [Draw.WsEv.connect Draw.Role.spectateur 0,
         Draw.WsEv.connect Draw.Role.spectateur 1]).1).2 =
      [Draw.WsOut.send 5 Draw.Sig.spectateurDisconnected] :=
  c10_supersede_close true ⟨none, some 5, [5], [(5, Draw.Role.magicien)]⟩ 0 1 5
    (by decide) rfl (by decide) (by decide)

end ESP

/-! ## Claim C2: helper lemmas -/

namespace ESP

theorem mem_addClient_iff {a b : Nat} {l : List Nat} :
    a ∈ addClient b l ↔ a = b ∨ a ∈ l := by
  unfold addClient
  split
  · rename_i hb
    constructor
    · exact Or.inr
    · rintro (rfl | h)
      · exact hb
      · exact h
  · simp [or_comm]

theorem transmit_accepted_state {valid : List String} {now : Nat}
    {b : TransmitBody} {fails : Nat → Bool} {st : ChannelState}
    (h : symbolOk valid b = true) :
    transmit valid now b fails st =
      (TransmitResult.accepted204,
       { st with lastSymbol := some (mkEvent now b),
                 clients := st.clients.filter fun c => !fails c },
       (st.clients.filter fun c => !fails c).map
         (fun c => Out.dataFrame c (mkEvent now b))) := by
  simp [transmit, h, fanout_eq]

theorem transmit_rejected_state {valid : List String} {now : Nat}
    {b : TransmitBody} {fails : Nat → Bool} {st : ChannelState}
    (h : symbolOk valid b = false) :
    transmit valid now b fails st = (TransmitResult.rejected400, st, []) := by
  simp [transmit, h]

theorem transmit_timers (valid : List String) (now : Nat) (b : TransmitBody)
    (fails : Nat → Bool) (st : ChannelState) :
    (transmit valid now b fails st).2.1.timers = st.timers := by
  cases h : symbolOk valid b with
  | true => rw [transmit_accepted_state h]
  | false => rw [transmit_rejected_state h]

theorem tick_clients (c : Nat) (ok : Bool) (st : ChannelState) :
    (tick c ok st).1.clients = st.clients := by
  unfold tick
  split
  · split <;> rfl
  · rfl

theorem step_clients_nodup {valid : List String} {st : ChannelState}
    (s : Step) (hn : st.clients.Nodup) :
    ((step valid st s).1).clients.Nodup := by
  cases s with
  | transmit now b fails =>
    show (transmit valid now b fails st).2.1.clients.Nodup
    cases h : symbolOk valid b with
    | true =>
      rw [transmit_accepted_state h]
      exact hn.filter _
    | false =>
      rw [transmit_rejected_state h]
      exact hn
  | connect now c => exact addClient_nodup hn c
  | close c => exact hn.erase c
  | tick c ok =>
    show (tick c ok st).1.clients.Nodup
    rw [tick_clients]
    exact hn

theorem recvEvents_append (c : Nat) (os1 os2 : List Out) :
    recvEvents c (os1 ++ os2) = recvEvents c os1 ++ recvEvents c os2 := by
  simp [recvEvents]

theorem recvEvents_map_dataFrame (c : Nat) (e : Event) (l : List Nat) :
    recvEvents c (l.map fun a => Out.dataFrame a e) =
      List.replicate (l.count c) e := by
  induction l with
  | nil => rfl
  | cons a l ih =>
    by_cases h : a = c
    · subst h
      simp [recvEvents, List.filterMap_cons, List.count_cons,
        List.replicate_succ] at ih ⊢
      exact ih
    · simp [recvEvents, List.filterMap_cons, List.count_cons, h,
        Ne.symm h] at ih ⊢
      exact ih

theorem recvEvents_ping (c c' : Nat) : recvEvents c [Out.pingFrame c'] = [] := rfl

theorem recvEvents_catchUp (c c' : Nat) (e : Event) :
    recvEvents c [Out.catchUpFrame c' e] = [] := rfl

theorem replicate_sublist_singleton {n : Nat} (e : Event) (h : n ≤ 1) :
    (List.replicate n e).Sublist [e] := by
  match n, h with
  | 0, _ => simp
  | 1, _ => simp

end ESP

/-! ## Claim C2: run-level ordering and the claim theorem -/

namespace ESP

theorem run_cons (valid : List String) (st : ChannelState) (s : Step)
    (ss : List Step) :
    run valid st (s :: ss) =
      ((run valid (step valid st s).1 ss).1,
       (step valid st s).2 ++ (run valid (step valid st s).1 ss).2) := rfl

theorem recvEvents_streamConnect (c now c' : Nat) (st : ChannelState) :
    recvEvents c (streamConnect now c' st).2 = [] := by
  unfold streamConnect
  cases catchUp now st.lastSymbol <;> rfl

theorem recvEvents_tick (c c' : Nat) (ok : Bool) (st : ChannelState) :
    recvEvents c (tick c' ok st).2 = [] := by
  unfold tick
  split
  · split <;> rfl
  · rfl

theorem recvEvents_run_sublist (valid : List String) (c : Nat) :
    ∀ (ss : List Step) (st : ChannelState), st.clients.Nodup →
      (recvEvents c (run valid st ss).2).Sublist (acceptedEvents valid ss) := by
  intro ss
  induction ss with
  | nil =>
    intro st _
    simp [run, recvEvents]
  | cons s ss ih =>
    intro st hn
    have hnext := @step_clients_nodup valid st s hn
    rw [run_cons, recvEvents_append]
    cases s with
    | transmit now b fails =>
      cases hok : symbolOk valid b with
      | true =>
        have hstep2 : (step valid st (Step.transmit now b fails)).2 =
            (st.clients.filter fun a => !fails a).map
              (fun a => Out.dataFrame a (mkEvent now b)) := by
          show (transmit valid now b fails st).2.2 = _
          rw [transmit_accepted_state hok]
        have hacc : acceptedEvents valid (Step.transmit now b fails :: ss) =
            mkEvent now b :: acceptedEvents valid ss := by
          simp [acceptedEvents, hok]
        rw [hstep2, hacc, recvEvents_map_dataFrame]
        have hcount : (st.clients.filter fun a => !fails a).count c ≤ 1 :=
          List.nodup_iff_count_le_one.mp (hn.filter _) c
        exact List.Sublist.append
          (replicate_sublist_singleton (mkEvent now b) hcount) (ih _ hnext)
      | false =>
        have hstep : step valid st (Step.transmit now b fails) = (st, []) := by
          show ((transmit valid now b fails st).2.1,
            (transmit valid now b fails st).2.2) = _
          rw [transmit_rejected_state hok]
        rw [hstep]
        simp only [List.nil_append]
        have hacc : acceptedEvents valid (Step.transmit now b fails :: ss) =
            acceptedEvents valid ss := by
          simp [acceptedEvents, hok]
        rw [hacc]
        simp only [recvEvents, List.filterMap_nil, List.nil_append]
        exact ih st hn
    | connect now c' =>
      have h2 : recvEvents c (step valid st (Step.connect now c')).2 = [] :=
        recvEvents_streamConnect c now c' st
      rw [h2]
      simp only [List.nil_append]
      have hacc : acceptedEvents valid (Step.connect now c' :: ss) =
          acceptedEvents valid ss := by
        simp [acceptedEvents]
      rw [hacc]
      exact ih _ hnext
    | close c' =>
      have h2 : recvEvents c (step valid st (Step.close c')).2 = [] := rfl
      rw [h2]
      simp only [List.nil_append]
      have hacc : acceptedEvents valid (Step.close c' :: ss) =
          acceptedEvents valid ss := by
        simp [acceptedEvents]
      rw [hacc]
      exact ih _ hnext
    | tick c' ok =>
      have h2 : recvEvents c (step valid st (Step.tick c' ok)).2 = [] :=
        recvEvents_tick c c' ok st
      rw [h2]
      simp only [List.nil_append]
      have hacc : acceptedEvents valid (Step.tick c' ok :: ss) =
          acceptedEvents valid ss := by
        simp [acceptedEvents]
      rw [hacc]
      exact ih _ hnext

/-- Claim C2: for an accepted publish, every subscriber in the set at
publish time whose write does not raise receives exactly one fan-out copy
of the event and stays in the set; a subscriber whose write raises receives
no copy and is absent from the set at the next publish. Across any event
sequence, the fan-out events any subscriber receives form a subsequence of
the accepted publishes in publish order. -/
theorem c2_fanout_exactly_once :
    (∀ (valid : List String) (now : Nat) (b : TransmitBody)
        (fails : Nat → Bool) (st : ChannelState) (c : Nat),
        symbolOk valid b = true → st.clients.Nodup → c ∈ st.clients →
        (fails c = false →
          ((transmit valid now b fails st).2.2).count
              (Out.dataFrame c (mkEvent now b)) = 1 ∧
          c ∈ (transmit valid now b fails st).2.1.clients) ∧
        (fails c = true →
          (∀ e, Out.dataFrame c e ∉ (transmit valid now b fails st).2.2) ∧
          c ∉ (transmit valid now b fails st).2.1.clients)) ∧
    (∀ (valid : List String) (ss : List Step) (st : ChannelState) (c : Nat),
        st.clients.Nodup →
        (recvEvents c (run valid st ss).2).Sublist (acceptedEvents valid ss)) := by
  constructor
  · intro valid now b fails st c hok hn hc
    have hT := @transmit_accepted_state valid now b fails st hok
    have houts : (transmit valid now b fails st).2.2 =
        (st.clients.filter fun a => !fails a).map
          (fun a => Out.dataFrame a (mkEvent now b)) := by
      rw [hT]
    have hcl : (transmit valid now b fails st).2.1.clients =
        st.clients.filter fun a => !fails a := by
      rw [hT]
    constructor
    · intro hf
      constructor
      · rw [houts]
        have hinj : Function.Injective
            (fun a => Out.dataFrame a (mkEvent now b)) := by
          intro x y hxy
          injection hxy
        rw [List.count_map_of_injective _ _ hinj c]
        exact count_eq_one_of_nodup_mem (hn.filter _)
          (List.mem_filter.mpr ⟨hc, by simp [hf]⟩)
      · rw [hcl]
        exact List.mem_filter.mpr ⟨hc, by simp [hf]⟩
    · intro hf
      constructor
      · intro e hmem
        rw [houts] at hmem
        rcases List.mem_map.mp hmem with ⟨a, ha, hae⟩
        injection hae with ha1 _
        subst ha1
        have := (List.mem_filter.mp ha).2
        simp [hf] at this
      · intro hmem
        rw [hcl] at hmem
        have := (List.mem_filter.mp hmem).2
        simp [hf] at this
  · intro valid ss st c hn
    exact recvEvents_run_sublist valid c ss st hn

/-- Theorem `c2_fanout_exactly_once` at concrete inputs: publishing `cercle` to the
Zener channel with clients {4, 9}, where 9's write raises: 4 receives one
copy and survives, 9 receives nothing and is gone; and over a two-publish
trace the events client 4 receives form a subsequence of the accepted
publishes. -/
theorem c2_witness :
    (((transmit zenerValid 3 ⟨some "cercle", none, none, none, none⟩
        (fun a => a == 9) ⟨none, [4, 9], [4, 9]⟩).2.2).count
      (Out.dataFrame 4 (mkEvent 3 ⟨some "cercle", none, none, none, none⟩)) = 1 ∧
      4 ∈ (transmit zenerValid 3 ⟨some "cercle", none, none, none, none⟩
        (fun a => a == 9) ⟨none, [4, 9], [4, 9]⟩).2.1.clients) ∧
    ((∀ e, Out.dataFrame 9 e ∉
        (transmit zenerValid 3 ⟨some "cercle", none, none, none, none⟩
          (fun a => a == 9) ⟨none, [4, 9], [4, 9]⟩).2.2) ∧
      9 ∉ (transmit zenerValid 3 ⟨some "cercle", none, none, none, none⟩
        (fun a => a == 9) ⟨none, [4, 9], [4, 9]⟩).2.1.clients) ∧
    (recvEvents 4 (run zenerValid ⟨none, [4], [4]⟩
        [Step.transmit 3 ⟨some "cercle", none, none, none, none⟩ (fun _ => false),
         Step.transmit 7 ⟨some "croix", none, none, none, none⟩
           (fun _ => false)]).2).Sublist
      (acceptedEvents zenerValid
        [Step.transmit 3 ⟨some "cercle", none, none, none, none⟩ (fun _ => false),
         Step.transmit 7 ⟨some "croix", none, none, none, none⟩ (fun _ => false)]) :=
  ⟨(c2_fanout_exactly_once.1 zenerValid 3 ⟨some "cercle", none, none, none, none⟩
      (fun a => a == 9) ⟨none, [4, 9], [4, 9]⟩ 4 (by decide) (by decide)
      (by decide)).1 rfl,
   (c2_fanout_exactly_once.1 zenerValid 3 ⟨some "cercle", none, none, none, none⟩
      (fun a => a == 9) ⟨none, [4, 9], [4, 9]⟩ 9 (by decide) (by decide)
      (by decide)).2 rfl,
   c2_fanout_exactly_once.2 zenerValid
     [Step.transmit 3 ⟨some "cercle", none, none, none, none⟩ (fun _ => false),
      Step.transmit 7 ⟨some "croix", none, none, none, none⟩ (fun _ => false)]
     ⟨none, [4], [4]⟩ 4 (by decide)⟩

end ESP

/-! ## Claim C6 -/

namespace ESP

theorem not_mem_erase_of_not_mem {a b : Nat} {l : List Nat} (h : a ∉ l) :
    a ∉ l.erase b := fun hm => h (List.mem_of_mem_erase hm)

theorem step_timers_not_mem {valid : List String} {st : ChannelState}
    {c : Nat} (s : Step) (hns : ∀ now, s ≠ Step.connect now c)
    (h : c ∉ st.timers) : c ∉ ((step valid st s).1).timers := by
  cases s with
  | transmit now b fails =>
    show c ∉ (transmit valid now b fails st).2.1.timers
    rw [transmit_timers]
    exact h
  | connect now c' =>
    have hcc : c' ≠ c := by
      intro e
      subst e
      exact hns now rfl
    show c ∉ ((streamConnect now c' st).1).timers
    intro hmem
    rcases mem_addClient_iff.mp hmem with rfl | hmem2
    · exact hcc rfl
    · exact h hmem2
  | close c' =>
    exact not_mem_erase_of_not_mem h
  | tick c' ok =>
    show c ∉ (tick c' ok st).1.timers
    unfold tick
    split
    · split
      · exact h
      · exact not_mem_erase_of_not_mem h
    · exact h

theorem step_no_ping {valid : List String} {st : ChannelState} {c : Nat}
    (s : Step) (h : c ∉ st.timers) :
    Out.pingFrame c ∉ (step valid st s).2 := by
  cases s with
  | transmit now b fails =>
    show Out.pingFrame c ∉ (transmit valid now b fails st).2.2
    cases hok : symbolOk valid b with
    | true =>
      rw [transmit_accepted_state hok]
      intro hmem
      rcases List.mem_map.mp hmem with ⟨a, _, hae⟩
      exact Out.noConfusion hae
    | false =>
      rw [transmit_rejected_state hok]
      exact List.not_mem_nil _
  | connect now c' =>
    show Out.pingFrame c ∉ (streamConnect now c' st).2
    unfold streamConnect
    cases catchUp now st.lastSymbol with
    | none => exact List.not_mem_nil _
    | some e =>
      intro hmem
      rcases List.mem_singleton.mp hmem with he
      exact Out.noConfusion he
  | close c' =>
    exact List.not_mem_nil _
  | tick c' ok =>
    show Out.pingFrame c ∉ (tick c' ok st).2
    unfold tick
    split
    · rename_i hmem'
      have hcc : c' ≠ c := by
        intro e
        subst e
        exact h hmem'
      split
      · intro hmem
        rcases List.mem_singleton.mp hmem with he
        injection he with he'
        exact hcc he'.symm
      · exact List.not_mem_nil _
    · exact List.not_mem_nil _

theorem no_ping_after (valid : List String) (c : Nat) :
    ∀ (ss : List Step) (st : ChannelState), c ∉ st.timers →
      (∀ now, Step.connect now c ∉ ss) →
      Out.pingFrame c ∉ (run valid st ss).2 := by
  intro ss
  induction ss with
  | nil =>
    intro st _ _
    exact List.not_mem_nil _
  | cons s ss ih =>
    intro st h hss
    rw [run_cons]
    intro hmem
    rcases List.mem_append.mp hmem with hm | hm
    · exact step_no_ping s h hm
    · have hns : ∀ now, s ≠ Step.connect now c := by
        intro now he
        exact hss now (he ▸ List.mem_cons_self s ss)
      exact ih _ (step_timers_not_mem s hns h)
        (fun now hin => hss now (List.mem_cons_of_mem _ hin)) hm

/-- Claim C6 is false as stated: a subscriber pruned by a failed publish
write keeps its live heartbeat timer. Concretely, subscriber 0 connects, a
publish of `cercle` finds 0's write raising — 0 is deleted from the client
set, but its interval was not cancelled — and the next firing of the
interval writes a `: ping` heartbeat frame to 0 after its removal from the
SubscriberSet. -/
theorem c6_counterexample :
    (run zenerValid ⟨none, [], []⟩
        [Step.connect 0 0,
         Step.transmit 1 ⟨some "cercle", none, none, none, none⟩
           (fun a => a == 0)]).1.clients = [] ∧
    (run zenerValid ⟨none, [], []⟩
        [Step.connect 0 0,
         Step.transmit 1 ⟨some "cercle", none, none, none, none⟩
           (fun a => a == 0)]).1.timers = [0] ∧
    (run zenerValid ⟨none, [], []⟩
        [Step.connect 0 0,
         Step.transmit 1 ⟨some "cercle", none, none, none, none⟩
           (fun a => a == 0),
         Step.tick 0 true]).2.count (Out.pingFrame 0) = 1 := by
  decide

/-- Claim C6 amended: heartbeats cease strictly after transport disconnect —
the close handler cancels the interval before removing the subscriber, and
no later step of any trace free of a reconnect of that subscriber writes it
a ping frame — and the interval also cancels itself on its own first write
failure. But a subscriber pruned by a failed publish write keeps its timer
(publish never touches the timers), so a heartbeat write after removal from
the SubscriberSet remains possible on that path. -/
theorem c6_heartbeat_amended :
    (∀ (valid : List String) (ss : List Step) (st : ChannelState) (c : Nat),
        c ∉ st.timers → (∀ now, Step.connect now c ∉ ss) →
        Out.pingFrame c ∉ (run valid st ss).2) ∧
    (∀ (st : ChannelState) (c : Nat), st.timers.Nodup → st.clients.Nodup →
        c ∉ (closeEvt c st).timers ∧ c ∉ (closeEvt c st).clients) ∧
    (∀ (st : ChannelState) (c : Nat), c ∈ st.timers →
        tick c false st = ({ st with timers := st.timers.erase c }, [])) ∧
    (∀ (valid : List String) (now : Nat) (b : TransmitBody)
        (fails : Nat → Bool) (st : ChannelState),
        (transmit valid now b fails st).2.1.timers = st.timers) := by
  refine ⟨?_, ?_, ?_, ?_⟩
  · intro valid ss st c h hss
    exact no_ping_after valid c ss st h hss
  · intro st c hnt hnc
    exact ⟨hnt.not_mem_erase, hnc.not_mem_erase⟩
  · intro st c hc
    simp [tick, hc]
  · intro valid now b fails st
    exact transmit_timers valid now b fails st

/-- Theorem `c6_heartbeat_amended` at concrete inputs: after subscriber 0's
transport close its timer and membership are gone and a later interval
firing writes nothing; a heartbeat write failure cancels the interval; and
an accepted publish leaves the timers untouched. -/
theorem c6_witness :
    Out.pingFrame 0 ∉ (run zenerValid ⟨none, [], []⟩ [Step.tick 0 true]).2 ∧
    (0 ∉ (closeEvt 0 ⟨none, [0, 1], [0, 1]⟩).timers ∧
      0 ∉ (closeEvt 0 ⟨none, [0, 1], [0, 1]⟩).clients) ∧
    tick 0 false ⟨none, [1], [0, 1]⟩ = (⟨none, [1], [1]⟩, []) ∧
    (transmit zenerValid 5 ⟨some "vagues", none, none, none, none⟩
        (fun a => a == 0) ⟨none, [0], [0]⟩).2.1.timers = [0] :=
  ⟨c6_heartbeat_amended.1 zenerValid [Step.tick 0 true] ⟨none, [], []⟩ 0
      (by decide)
      (fun now hmem => Step.noConfusion (List.mem_singleton.mp hmem)),
   c6_heartbeat_amended.2.1 ⟨none, [0, 1], [0, 1]⟩ 0 (by decide) (by decide),
   c6_heartbeat_amended.2.2.1 ⟨none, [1], [0, 1]⟩ 0 (by decide),
   c6_heartbeat_amended.2.2.2 zenerValid 5 ⟨some "vagues", none, none, none, none⟩
     (fun a => a == 0) ⟨none, [0], [0]⟩⟩

end ESP
